import Mathlib

/-!
Shallow embedding of the streaming chat application.

Backend: the Express router in `routes/chats.ts` (conversation CRUD plus the
SSE message-sending route).  Database calls (`better-sqlite3`) are synchronous,
so a handler is modelled as a pure function from a `Store` to a response; the
send route additionally produces the ordered trace of its observable actions
(database writes, SSE pushes, response end), from which the final store and the
emitted event list are derived.

Frontend: the `ChatView` component's state and its `sendMessage` /
`onChunk` / `onDone` / `onError` / `handleRetry` handlers, modelled as pure
transition functions on a `ChatState`.
-/

/-- Message role column: `'user' | 'assistant'`. -/
inductive Role
  | user
  | assistant
deriving DecidableEq, Repr

/-- Message status column: `'sending' | 'sent' | 'failed'`. -/
inductive Status
  | sending
  | sent
  | failed
deriving DecidableEq, Repr

/-- A row of the `messages` table (also the shape of the frontend `Message`). -/
structure MessageRow where
  id : String
  conversation_id : String
  role : Role
  content : String
  status : Status
  error_message : Option String
  created_at : String
deriving DecidableEq, Repr

/-- A row of the `conversations` table. -/
structure ConversationRow where
  id : String
  title : String
  created_at : String
  updated_at : String
deriving DecidableEq, Repr

/-- The persistent store: both tables, rows in insertion order. -/
structure Store where
  conversations : List ConversationRow
  messages : List MessageRow
deriving DecidableEq, Repr

/-- SSE events pushed by the send route (`better-sse` `session.push`). -/
inductive SSEEvent
  | chunk (content : String)
  | done (messageId : String) (content : String)
  | error (errMsg : String)
deriving DecidableEq, Repr

/-- One observable action of the send route, in program order:
the three kinds of SQL write it performs, an SSE push, and `res.end()`. -/
inductive Act
  | dbInsert (m : MessageRow)
  | dbUpdateSent (mid : String) (content : String)
  | dbUpdateFailed (mid : String) (errMsg : String)
  | dbTouchConv (cid : String) (now : String)
  | push (e : SSEEvent)
  | respEnd
deriving DecidableEq, Repr

/-- Effect of one action on the store.  `dbUpdateSent` is
`UPDATE messages SET content = ?, status = 'sent' WHERE id = ?`;
`dbUpdateFailed` is `UPDATE messages SET status = 'failed', error_message = ? WHERE id = ?`;
`dbTouchConv` is `UPDATE conversations SET updated_at = ? WHERE id = ?`. -/
def applyAction (s : Store) : Act → Store
  | .dbInsert m => { s with messages := s.messages ++ [m] }
  | .dbUpdateSent mid content =>
      { s with messages := s.messages.map fun m =>
          if m.id = mid then { m with content := content, status := .sent } else m }
  | .dbUpdateFailed mid errMsg =>
      { s with messages := s.messages.map fun m =>
          if m.id = mid then { m with status := .failed, error_message := some errMsg } else m }
  | .dbTouchConv cid now =>
      { s with conversations := s.conversations.map fun c =>
          if c.id = cid then { c with updated_at := now } else c }
  | .push _ => s
  | .respEnd => s

/-- Final store after running a trace. -/
def finalStore (s : Store) (tr : List Act) : Store :=
  tr.foldl applyAction s

/-- The SSE events of a trace, in push order. -/
def events (tr : List Act) : List SSEEvent :=
  tr.filterMap fun a =>
    match a with
    | .push e => some e
    | _ => none

/-- Concatenation of the payloads of the `chunk` events in a list. -/
def chunkConcat (es : List SSEEvent) : String :=
  String.join (es.filterMap fun e =>
    match e with
    | .chunk c => some c
    | _ => none)

/-- The `content` field of a send request body: absent, present but not a
string, or a string. -/
inductive BodyContent
  | missing
  | nonString
  | str (s : String)
deriving DecidableEq, Repr

/-- JS truthiness of the `content` field (`!content` is true for a missing
field and for the empty string). -/
def contentTruthy : BodyContent → Bool
  | .str s => !s.isEmpty
  | .nonString => true
  | .missing => false

/-- Whether `typeof content === 'string'`. -/
def contentIsString : BodyContent → Bool
  | .str _ => true
  | _ => false

/-- The route's validation guard `!content || typeof content !== 'string'`. -/
def contentInvalid (b : BodyContent) : Bool :=
  !contentTruthy b || !contentIsString b

/-- The string value of a validated body (only used after the guard passes). -/
def bodyStr : BodyContent → String
  | .str s => s
  | _ => ""

/-- Modelled from the spec: the behavior of `createAIStream`
(`openai-stream.js`, not part of the given sources).  The Completion Source
"produces a sequence of text fragments asynchronously and signals completion
or failure": it either yields its fragments and completes, or yields some
fragments and then fails with an error message. -/
inductive Outcome
  | success (frags : List String)
  | failure (frags : List String) (errMsg : String)
deriving DecidableEq, Repr

/-- Modelled from the spec: `createAIStream` invokes `onChunk` once per
fragment in order, then exactly one terminal callback — `onDone` with the full
accumulated text on completion, or `onError` with the error on failure.
This trace fragment is the route's callbacks run under that discipline:
each `onChunk` pushes a `chunk` event; `onDone` updates the placeholder row to
`sent` with the full text, pushes `done` and ends the response; `onError`
updates the placeholder row to `failed` with the error message, pushes `error`
and ends the response. -/
def streamTrace (asstMsgId : String) : Outcome → List Act
  | .success frags =>
      (frags.map fun f => Act.push (.chunk f))
      ++ [Act.dbUpdateSent asstMsgId (String.join frags),
          Act.push (.done asstMsgId (String.join frags)),
          Act.respEnd]
  | .failure frags errMsg =>
      (frags.map fun f => Act.push (.chunk f))
      ++ [Act.dbUpdateFailed asstMsgId errMsg,
          Act.push (.error errMsg),
          Act.respEnd]

/-- Response of `POST /api/chats/:id/messages`: a 400, a 404, or an opened
SSE session whose observable behavior is a trace of actions. -/
inductive PostMessagesResponse
  | badRequest (error : String)
  | notFound (error : String)
  | sse (tr : List Act)
deriving DecidableEq, Repr

/-- The trace of actions a response performs (400/404 return before any
database write, so their trace is empty). -/
def responseTrace : PostMessagesResponse → List Act
  | .sse tr => tr
  | _ => []

/-- The user message row inserted by step 3 of the route
(status `'sent'` at insertion). -/
def userMessageRow (convId userMsgId content now : String) : MessageRow :=
  { id := userMsgId, conversation_id := convId, role := .user,
    content := content, status := .sent, error_message := none,
    created_at := now }

/-- The assistant placeholder row inserted by step 4 of the route
(empty content, status `'sending'`). -/
def placeholderRow (convId asstMsgId now : String) : MessageRow :=
  { id := asstMsgId, conversation_id := convId, role := .assistant,
    content := "", status := .sending, error_message := none,
    created_at := now }

/-- The prior turns loaded by step 2 of the route:
`SELECT * FROM messages WHERE conversation_id = ? AND status = 'sent' ORDER BY created_at ASC`
(passed to the Completion Source; the `Outcome` parameter abstracts the
source's reaction to them). -/
def conversationHistory (s : Store) (convId : String) : List MessageRow :=
  (s.messages.filter fun m =>
    m.conversation_id = convId && m.status = Status.sent).mergeSort
    fun a b => a.created_at ≤ b.created_at

/-- The handler of `POST /api/chats/:id/messages`.  `userMsgId` and
`asstMsgId` stand for the two `uuidv4()` calls, `now` for
`new Date().toISOString()`, and `outcome` for the Completion Source's
behavior on this request. -/
def postChatMessages (s : Store) (convId : String) (body : BodyContent)
    (userMsgId asstMsgId now : String) (outcome : Outcome) :
    PostMessagesResponse :=
  if contentInvalid body then
    .badRequest "Message content is required"
  else
    match s.conversations.find? fun c => c.id = convId with
    | none => .notFound "Conversation not found"
    | some _ =>
        .sse ([Act.dbInsert (userMessageRow convId userMsgId (bodyStr body) now),
               Act.dbInsert (placeholderRow convId asstMsgId now),
               Act.dbTouchConv convId now]
              ++ streamTrace asstMsgId outcome)

/-- Response of `GET /api/chats/:id/messages`. -/
inductive GetMessagesResponse
  | notFound (error : String)
  | ok (msgs : List MessageRow)
deriving DecidableEq, Repr

/-- The handler of `GET /api/chats/:id/messages`: 404 when the conversation
does not exist, otherwise the conversation's messages ordered by
`created_at` ascending.  It performs no writes. -/
def getChatMessages (s : Store) (convId : String) : GetMessagesResponse :=
  match s.conversations.find? fun c => c.id = convId with
  | none => .notFound "Conversation not found"
  | some _ =>
      .ok ((s.messages.filter fun m => m.conversation_id = convId).mergeSort
        fun a b => a.created_at ≤ b.created_at)

/-- The title actually inserted by `POST /api/chats`: `title || 'New Chat'`
(a missing title and the empty string are both falsy). -/
def titleOrDefault : Option String → String
  | none => "New Chat"
  | some s => if s.isEmpty then "New Chat" else s

/-- Response of `POST /api/chats`: the HTTP status, the JSON body (the row
re-selected by id after the insert), and the store after the insert. -/
structure PostChatsResponse where
  status : Nat
  record : Option ConversationRow
  store : Store
deriving DecidableEq, Repr

/-- The handler of `POST /api/chats`: inserts a conversation row with the
defaulted title and both timestamps set to `now`, re-selects it by id, and
answers 201 with the selected row. -/
def postChats (s : Store) (title : Option String) (newId now : String) :
    PostChatsResponse :=
  let row : ConversationRow :=
    { id := newId, title := titleOrDefault title,
      created_at := now, updated_at := now }
  let s' : Store := { s with conversations := s.conversations ++ [row] }
  { status := 201,
    record := s'.conversations.find? fun c => c.id = newId,
    store := s' }

/-- Local state of the `ChatView` component that the send flow touches:
the `messages`, `streamingContent`, `isStreaming` and `error` hooks
(the conversation id comes from the route params). -/
structure ChatState where
  conversationId : String
  messages : List MessageRow
  streamingContent : String
  isStreaming : Bool
  error : Option String
deriving DecidableEq, Repr

/-- What a `ChatView` handler call does besides updating local state:
either nothing, or it opens a new Consumer stream (`subscribeToSSE` with a
POST body) for the optimistic entry with the given temporary id. -/
inductive SendEffect
  | noop
  | openStream (body : String) (tempId : String)
deriving DecidableEq, Repr

/-- The optimistic user message appended by `sendMessage`
(`tempId` stands for the computed id string, in the code a
template literal over `Date.now()`; `now` for `new Date().toISOString()`). -/
def tempUserMessage (convId tempId content now : String) : MessageRow :=
  { id := tempId, conversation_id := convId, role := .user,
    content := content, status := .sending, error_message := none,
    created_at := now }

/-- `ChatView.sendMessage`: rejected (no state change, no stream) while
`isStreaming`; otherwise clears the error, appends the optimistic user entry,
enters streaming with an empty buffer, and opens the SSE stream. -/
def sendMessage (st : ChatState) (content : String) (tempId now : String) :
    ChatState × SendEffect :=
  if st.isStreaming then (st, .noop)
  else
    ({ st with
        error := none,
        messages := st.messages ++
          [tempUserMessage st.conversationId tempId content now],
        isStreaming := true,
        streamingContent := "" },
     .openStream content tempId)

/-- The `onChunk` callback: appends the fragment to the streaming buffer. -/
def onChunk (st : ChatState) (chunk : String) : ChatState :=
  { st with streamingContent := st.streamingContent ++ chunk }

/-- The confirmed assistant entry appended by `onDone` from the `done`
event's `messageId` and `content`. -/
def confirmedAssistant (convId messageId fullContent now : String) :
    MessageRow :=
  { id := messageId, conversation_id := convId, role := .assistant,
    content := fullContent, status := .sent, error_message := none,
    created_at := now }

/-- JS `String.prototype.replace` with a string pattern on character lists:
it rewrites the first occurrence of the pattern and leaves the rest alone. -/
def replaceFirst : List Char → List Char → List Char → List Char
  | [], pat, rep => if pat = [] then rep else []
  | c :: rest, pat, rep =>
      if (c :: rest).take pat.length = pat then
        rep ++ (c :: rest).drop pat.length
      else c :: replaceFirst rest pat rep

/-- JS `s.replace(pat, rep)` for string arguments (first occurrence only). -/
def jsReplaceFirst (s pat rep : String) : String :=
  ⟨replaceFirst s.data pat.data rep.data⟩

/-- The `onDone` callback: rewrites the entry carrying the temporary id to
status `sent` with `id.replace('temp-', 'user-')`, appends the confirmed
assistant entry from the event, clears the streaming buffer and leaves the
streaming state. -/
def onDone (st : ChatState) (tempId messageId fullContent now : String) :
    ChatState :=
  { st with
      messages :=
        (st.messages.map fun m =>
          if m.id = tempId then
            { m with status := .sent,
                     id := jsReplaceFirst m.id "temp-" "user-" }
          else m)
        ++ [confirmedAssistant st.conversationId messageId fullContent now],
      streamingContent := "",
      isStreaming := false }

/-- The `onError` callback: marks the entry carrying the temporary id
`failed` with the error detail, clears the streaming buffer, leaves the
streaming state and surfaces the error. -/
def onError (st : ChatState) (tempId errMsg : String) : ChatState :=
  { st with
      messages := st.messages.map fun m =>
        if m.id = tempId then
          { m with status := .failed, error_message := some errMsg }
        else m,
      streamingContent := "",
      isStreaming := false,
      error := some errMsg }

/-- `ChatView.handleRetry`: removes the failed entry from the view and calls
`sendMessage` again with its content. -/
def handleRetry (st : ChatState) (failedMsg : MessageRow)
    (tempId now : String) : ChatState × SendEffect :=
  sendMessage
    { st with messages := st.messages.filter fun m => m.id ≠ failedMsg.id }
    failedMsg.content tempId now

/-- Whether an action is a row insertion. -/
def isDbInsert : Act → Bool
  | .dbInsert _ => true
  | _ => false

/-- Whether an action is an SSE push. -/
def isPushAct : Act → Bool
  | .push _ => true
  | _ => false

/-- Whether an action pushes a terminal (`done` or `error`) event. -/
def isTerminalPush : Act → Bool
  | .push (.done _ _) => true
  | .push (.error _) => true
  | _ => false

/-- Whether an action is a status write (final persistence write) to the
message with the given id. -/
def isStatusWrite (mid : String) : Act → Bool
  | .dbUpdateSent mid' _ => mid' = mid
  | .dbUpdateFailed mid' _ => mid' = mid
  | _ => false

/-- Every insertion in the trace occurs strictly before every push:
no push is followed, anywhere later, by an insertion. -/
def insertsPrecedePushes : List Act → Bool
  | [] => true
  | a :: rest =>
      (if isPushAct a then rest.all fun b => !isDbInsert b else true)
      && insertsPrecedePushes rest

/-- A status write to the given message id occurs in the trace strictly
before any terminal push. -/
def writeBeforeTerminal (mid : String) : List Act → Bool
  | [] => false
  | a :: rest =>
      if isStatusWrite mid a then true
      else if isTerminalPush a then false
      else writeBeforeTerminal mid rest

/-- The payloads of the chunk events in a list of events. -/
def chunkTexts (es : List SSEEvent) : List String :=
  es.filterMap fun e =>
    match e with
    | .chunk c => some c
    | _ => none

lemma chunkConcat_eq_join (es : List SSEEvent) :
    chunkConcat es = String.join (chunkTexts es) := rfl

lemma events_append (xs ys : List Act) :
    events (xs ++ ys) = events xs ++ events ys := by
  simp [events, List.filterMap_append]

lemma events_chunkPushes (frags : List String) :
    events (frags.map fun f => Act.push (SSEEvent.chunk f))
      = frags.map SSEEvent.chunk := by
  induction frags with
  | nil => simp [events]
  | cons f fs ih => simpa [events, List.filterMap_cons] using ih

lemma chunkTexts_chunks_append (frags : List String) (es : List SSEEvent) :
    chunkTexts (frags.map SSEEvent.chunk ++ es)
      = frags ++ chunkTexts es := by
  induction frags with
  | nil => simp
  | cons f fs ih => simpa [chunkTexts, List.filterMap_cons] using ih

lemma foldl_chunkPushes (s : Store) (frags : List String) :
    (frags.map fun f => Act.push (SSEEvent.chunk f)).foldl applyAction s
      = s := by
  induction frags generalizing s with
  | nil => rfl
  | cons f fs ih => simpa [applyAction] using ih s

lemma insertsPrecedePushes_append (xs ys : List Act)
    (hxs : ∀ a ∈ xs, isPushAct a = false)
    (hys : insertsPrecedePushes ys = true) :
    insertsPrecedePushes (xs ++ ys) = true := by
  induction xs with
  | nil => simpa using hys
  | cons a xs ih =>
      have ha := hxs a (List.mem_cons_self a xs)
      simp only [List.cons_append, insertsPrecedePushes, ha,
        Bool.and_eq_true]
      exact ⟨by simp, ih fun b hb => hxs b (List.mem_cons_of_mem a hb)⟩

lemma insertsPrecedePushes_of_no_insert (ys : List Act)
    (h : ∀ a ∈ ys, isDbInsert a = false) :
    insertsPrecedePushes ys = true := by
  induction ys with
  | nil => rfl
  | cons a rest ih =>
      simp only [insertsPrecedePushes, Bool.and_eq_true]
      refine ⟨?_, ih fun b hb => h b (List.mem_cons_of_mem a hb)⟩
      by_cases hp : isPushAct a = true
      · simp only [hp, if_true, List.all_eq_true]
        intro b hb
        simp [h b (List.mem_cons_of_mem a hb)]
      · simp [hp]

lemma writeBeforeTerminal_skip (mid : String) (xs ys : List Act)
    (hxs : ∀ a ∈ xs, isStatusWrite mid a = false ∧ isTerminalPush a = false) :
    writeBeforeTerminal mid (xs ++ ys) = writeBeforeTerminal mid ys := by
  induction xs with
  | nil => simp
  | cons a xs ih =>
      have ha := hxs a (List.mem_cons_self a xs)
      simp only [List.cons_append, writeBeforeTerminal, ha.1, ha.2,
        if_false]
      exact ih fun b hb => hxs b (List.mem_cons_of_mem a hb)

lemma postChatMessages_sse (store : Store)
    (convId s userMsgId asstMsgId now : String) (outcome : Outcome)
    (conv : ConversationRow)
    (hs : s.isEmpty = false)
    (hconv : (store.conversations.find? fun c => c.id = convId) = some conv) :
    postChatMessages store convId (.str s) userMsgId asstMsgId now outcome
      = .sse ([Act.dbInsert (userMessageRow convId userMsgId s now),
               Act.dbInsert (placeholderRow convId asstMsgId now),
               Act.dbTouchConv convId now]
              ++ streamTrace asstMsgId outcome) := by
  simp [postChatMessages, contentInvalid, contentTruthy, contentIsString,
    hs, hconv, bodyStr]

lemma finalStore_messages_success (store : Store)
    (convId userMsgId asstMsgId now content : String) (frags : List String) :
    (finalStore store
      ([Act.dbInsert (userMessageRow convId userMsgId content now),
        Act.dbInsert (placeholderRow convId asstMsgId now),
        Act.dbTouchConv convId now]
       ++ streamTrace asstMsgId (.success frags))).messages
    = (store.messages
        ++ [userMessageRow convId userMsgId content now,
            placeholderRow convId asstMsgId now]).map fun m =>
        if m.id = asstMsgId then
          { m with content := String.join frags, status := Status.sent }
        else m := by
  simp [finalStore, streamTrace, List.foldl_append, foldl_chunkPushes,
    applyAction, List.append_assoc]

lemma finalStore_messages_failure (store : Store)
    (convId userMsgId asstMsgId now content errMsg : String)
    (frags : List String) :
    (finalStore store
      ([Act.dbInsert (userMessageRow convId userMsgId content now),
        Act.dbInsert (placeholderRow convId asstMsgId now),
        Act.dbTouchConv convId now]
       ++ streamTrace asstMsgId (.failure frags errMsg))).messages
    = (store.messages
        ++ [userMessageRow convId userMsgId content now,
            placeholderRow convId asstMsgId now]).map fun m =>
        if m.id = asstMsgId then
          { m with status := Status.failed, error_message := some errMsg }
        else m := by
  simp [finalStore, streamTrace, List.foldl_append, foldl_chunkPushes,
    applyAction, List.append_assoc]

/-- The sequence of statuses the trace writes for a given message id: the
status the row is inserted with, followed by every status an update sets. -/
def statusEvents (mid : String) : List Act → List Status
  | [] => []
  | .dbInsert m :: rest =>
      (if m.id = mid then [m.status] else []) ++ statusEvents mid rest
  | .dbUpdateSent mid' _ :: rest =>
      (if mid' = mid then [Status.sent] else []) ++ statusEvents mid rest
  | .dbUpdateFailed mid' _ :: rest =>
      (if mid' = mid then [Status.failed] else []) ++ statusEvents mid rest
  | _ :: rest => statusEvents mid rest

/-- The status histories the claim allows a message record: created in
`sending`, then moved at most once, to `sent` or to `failed`. -/
def claimedLegalHistory : List Status → Bool
  | [] => true
  | [Status.sending] => true
  | [Status.sending, Status.sent] => true
  | [Status.sending, Status.failed] => true
  | _ => false

/-- A store holding one conversation `"c1"` and no messages, used as the
concrete scenario input. -/
def store0 : Store :=
  { conversations :=
      [{ id := "c1", title := "New Chat", created_at := "t0",
         updated_at := "t0" }],
    messages := [] }

lemma events_of_success_trace (convId s userMsgId asstMsgId now : String)
    (frags : List String) :
    events ([Act.dbInsert (userMessageRow convId userMsgId s now),
             Act.dbInsert (placeholderRow convId asstMsgId now),
             Act.dbTouchConv convId now]
            ++ streamTrace asstMsgId (.success frags))
      = frags.map SSEEvent.chunk
        ++ [SSEEvent.done asstMsgId (String.join frags)] := by
  rw [events_append]
  simp only [streamTrace, events_append, events_chunkPushes]
  simp [events]

lemma events_of_failure_trace (convId s userMsgId asstMsgId now errMsg : String)
    (frags : List String) :
    events ([Act.dbInsert (userMessageRow convId userMsgId s now),
             Act.dbInsert (placeholderRow convId asstMsgId now),
             Act.dbTouchConv convId now]
            ++ streamTrace asstMsgId (.failure frags errMsg))
      = frags.map SSEEvent.chunk ++ [SSEEvent.error errMsg] := by
  rw [events_append]
  simp only [streamTrace, events_append, events_chunkPushes]
  simp [events]

/-- C1: for every successful stream handled by the send route, the emitted
events are exactly the chunk events followed by a single `done` event; the
concatenation of the chunk payloads equals the `done` event's `content`
(the join of the fragments), and the assistant placeholder is persisted with
that same content and status `sent`. -/
theorem claim_C1_chunks_done_persisted_agree (store : Store)
    (convId s userMsgId asstMsgId now : String) (frags : List String)
    (conv : ConversationRow)
    (hs : s.isEmpty = false)
    (hconv : (store.conversations.find? fun c => c.id = convId) = some conv) :
    events (responseTrace (postChatMessages store convId (.str s) userMsgId
        asstMsgId now (.success frags)))
      = frags.map SSEEvent.chunk
        ++ [SSEEvent.done asstMsgId (String.join frags)] ∧
    chunkConcat (events (responseTrace (postChatMessages store convId (.str s)
        userMsgId asstMsgId now (.success frags))))
      = String.join frags ∧
    (∃ m ∈ (finalStore store (responseTrace (postChatMessages store convId
        (.str s) userMsgId asstMsgId now (.success frags)))).messages,
      m.id = asstMsgId) ∧
    (∀ m ∈ (finalStore store (responseTrace (postChatMessages store convId
        (.str s) userMsgId asstMsgId now (.success frags)))).messages,
      m.id = asstMsgId →
        m.content = String.join frags ∧ m.status = Status.sent) := by
  rw [postChatMessages_sse store convId s userMsgId asstMsgId now
    (.success frags) conv hs hconv]
  simp only [responseTrace]
  refine ⟨events_of_success_trace convId s userMsgId asstMsgId now frags,
    ?_, ?_, ?_⟩
  · rw [events_of_success_trace convId s userMsgId asstMsgId now frags,
      chunkConcat_eq_join, chunkTexts_chunks_append]
    simp [chunkTexts]
  · rw [finalStore_messages_success]
    refine ⟨{ placeholderRow convId asstMsgId now with
      content := String.join frags, status := Status.sent }, ?_, rfl⟩
    have hp : placeholderRow convId asstMsgId now
        ∈ store.messages ++ [userMessageRow convId userMsgId s now,
          placeholderRow convId asstMsgId now] := by simp
    have := List.mem_map_of_mem (fun m =>
      if m.id = asstMsgId then
        { m with content := String.join frags, status := Status.sent }
      else m) hp
    simp only [placeholderRow, if_pos rfl] at this
    exact this
  · rw [finalStore_messages_success]
    intro m hm hid
    rcases List.mem_map.mp hm with ⟨m₀, hm₀, rfl⟩
    by_cases h0 : m₀.id = asstMsgId
    · simp [h0]
    · rw [if_neg h0] at hid
      exact absurd hid h0

/-- C1 witness: the spec scenario — `"hello"` sent to a fresh conversation
with fragments `["Hi", " there"]` — instantiating the C1 theorem. -/
theorem claim_C1_witness :
    events (responseTrace (postChatMessages store0 "c1" (.str "hello") "u1"
        "a1" "t1" (.success ["Hi", " there"])))
      = ["Hi", " there"].map SSEEvent.chunk
        ++ [SSEEvent.done "a1" (String.join ["Hi", " there"])] ∧
    chunkConcat (events (responseTrace (postChatMessages store0 "c1"
        (.str "hello") "u1" "a1" "t1" (.success ["Hi", " there"]))))
      = String.join ["Hi", " there"] ∧
    (∃ m ∈ (finalStore store0 (responseTrace (postChatMessages store0 "c1"
        (.str "hello") "u1" "a1" "t1" (.success ["Hi", " there"])))).messages,
      m.id = "a1") ∧
    (∀ m ∈ (finalStore store0 (responseTrace (postChatMessages store0 "c1"
        (.str "hello") "u1" "a1" "t1" (.success ["Hi", " there"])))).messages,
      m.id = "a1" →
        m.content = String.join ["Hi", " there"] ∧ m.status = Status.sent) :=
  claim_C1_chunks_done_persisted_agree store0 "c1" "hello" "u1" "a1" "t1"
    ["Hi", " there"]
    { id := "c1", title := "New Chat", created_at := "t0", updated_at := "t0" }
    (by decide) (by decide)

lemma countP_terminal_chunkPushes (frags : List String) :
    (frags.map fun f => Act.push (SSEEvent.chunk f)).countP
      (fun a => isTerminalPush a) = 0 := by
  induction frags with
  | nil => rfl
  | cons f fs ih => simp [List.countP_cons, isTerminalPush, ih]

lemma no_insert_in_streamTrace (asstMsgId : String) (outcome : Outcome) :
    ∀ a ∈ streamTrace asstMsgId outcome, isDbInsert a = false := by
  intro a ha
  cases outcome with
  | success frags =>
      simp only [streamTrace, List.mem_append, List.mem_map,
        List.mem_cons, List.not_mem_nil, or_false] at ha
      rcases ha with ⟨f, _, rfl⟩ | rfl | rfl | rfl <;> rfl
  | failure frags errMsg =>
      simp only [streamTrace, List.mem_append, List.mem_map,
        List.mem_cons, List.not_mem_nil, or_false] at ha
      rcases ha with ⟨f, _, rfl⟩ | rfl | rfl | rfl <;> rfl

/-- C2: for every opened stream, both rows (the user message and the
placeholder) are inserted, every insertion occurs in the trace strictly
before every SSE push (in particular before the first `chunk`), the final
status write to the placeholder occurs strictly before the terminal push,
and exactly one terminal (`done`/`error`) push occurs. -/
theorem claim_C2_persistence_before_events (store : Store)
    (convId s userMsgId asstMsgId now : String) (outcome : Outcome)
    (conv : ConversationRow)
    (hs : s.isEmpty = false)
    (hconv : (store.conversations.find? fun c => c.id = convId) = some conv) :
    Act.dbInsert (userMessageRow convId userMsgId s now)
      ∈ responseTrace (postChatMessages store convId (.str s) userMsgId
        asstMsgId now outcome) ∧
    Act.dbInsert (placeholderRow convId asstMsgId now)
      ∈ responseTrace (postChatMessages store convId (.str s) userMsgId
        asstMsgId now outcome) ∧
    insertsPrecedePushes (responseTrace (postChatMessages store convId
      (.str s) userMsgId asstMsgId now outcome)) = true ∧
    writeBeforeTerminal asstMsgId (responseTrace (postChatMessages store
      convId (.str s) userMsgId asstMsgId now outcome)) = true ∧
    (responseTrace (postChatMessages store convId (.str s) userMsgId
      asstMsgId now outcome)).countP (fun a => isTerminalPush a) = 1 := by
  rw [postChatMessages_sse store convId s userMsgId asstMsgId now
    outcome conv hs hconv]
  simp only [responseTrace]
  refine ⟨by simp, by simp, ?_, ?_, ?_⟩
  · refine insertsPrecedePushes_append _ _ ?_
      (insertsPrecedePushes_of_no_insert _
        (no_insert_in_streamTrace asstMsgId outcome))
    intro a ha
    simp only [List.mem_cons, List.not_mem_nil, or_false] at ha
    rcases ha with rfl | rfl | rfl <;> rfl
  · cases outcome with
    | success frags =>
        rw [streamTrace, ← List.append_assoc, writeBeforeTerminal_skip]
        · simp [writeBeforeTerminal, isStatusWrite]
        · intro a ha
          simp only [List.mem_append, List.mem_cons, List.not_mem_nil,
            or_false, List.mem_map] at ha
          rcases ha with (rfl | rfl | rfl) | ⟨f, _, rfl⟩ <;>
            exact ⟨rfl, rfl⟩
    | failure frags errMsg =>
        rw [streamTrace, ← List.append_assoc, writeBeforeTerminal_skip]
        · simp [writeBeforeTerminal, isStatusWrite]
        · intro a ha
          simp only [List.mem_append, List.mem_cons, List.not_mem_nil,
            or_false, List.mem_map] at ha
          rcases ha with (rfl | rfl | rfl) | ⟨f, _, rfl⟩ <;>
            exact ⟨rfl, rfl⟩
  · cases outcome with
    | success frags =>
        simp [streamTrace, List.countP_append, List.countP_cons,
          countP_terminal_chunkPushes, isTerminalPush]
    | failure frags errMsg =>
        simp [streamTrace, List.countP_append, List.countP_cons,
          countP_terminal_chunkPushes, isTerminalPush]

/-- C2 witness: the C2 theorem instantiated at the concrete success
scenario. -/
theorem claim_C2_witness :
    Act.dbInsert (userMessageRow "c1" "u1" "hello" "t1")
      ∈ responseTrace (postChatMessages store0 "c1" (.str "hello") "u1"
        "a1" "t1" (.success ["Hi", " there"])) ∧
    Act.dbInsert (placeholderRow "c1" "a1" "t1")
      ∈ responseTrace (postChatMessages store0 "c1" (.str "hello") "u1"
        "a1" "t1" (.success ["Hi", " there"])) ∧
    insertsPrecedePushes (responseTrace (postChatMessages store0 "c1"
      (.str "hello") "u1" "a1" "t1" (.success ["Hi", " there"]))) = true ∧
    writeBeforeTerminal "a1" (responseTrace (postChatMessages store0 "c1"
      (.str "hello") "u1" "a1" "t1" (.success ["Hi", " there"]))) = true ∧
    (responseTrace (postChatMessages store0 "c1" (.str "hello") "u1" "a1"
      "t1" (.success ["Hi", " there"]))).countP
        (fun a => isTerminalPush a) = 1 :=
  claim_C2_persistence_before_events store0 "c1" "hello" "u1" "a1" "t1"
    (.success ["Hi", " there"])
    { id := "c1", title := "New Chat", created_at := "t0", updated_at := "t0" }
    (by decide) (by decide)

/-- C3 counterexample: in the concrete success scenario the user message row
`"u1"` is inserted directly with status `sent` — its status history is
`[sent]`, which never passes through `sending`, so the claimed transition
discipline fails on it. -/
theorem claim_C3_counterexample :
    claimedLegalHistory (statusEvents "u1" (responseTrace
      (postChatMessages store0 "c1" (.str "hello") "u1" "a1" "t1"
        (.success ["Hi"])))) = false ∧
    statusEvents "u1" (responseTrace
      (postChatMessages store0 "c1" (.str "hello") "u1" "a1" "t1"
        (.success ["Hi"]))) = [Status.sent] := by
  exact ⟨by decide, by decide⟩

lemma statusEvents_append (mid : String) (xs ys : List Act) :
    statusEvents mid (xs ++ ys)
      = statusEvents mid xs ++ statusEvents mid ys := by
  induction xs with
  | nil => simp [statusEvents]
  | cons a xs ih => cases a <;> simp [statusEvents, ih]

lemma statusEvents_chunkPushes (mid : String) (frags : List String) :
    statusEvents mid (frags.map fun f => Act.push (SSEEvent.chunk f))
      = [] := by
  induction frags with
  | nil => rfl
  | cons f fs ih => simpa [statusEvents] using ih

/-- C3 amended: status updates only move a message from `sending` to a
terminal status — for every opened stream the assistant placeholder's status
history is `[sending, sent]` or `[sending, failed]` (created `sending`,
moved once, never moved back) — but the user message row is persisted
directly with status `sent` (history `[sent]`, skipping `sending`
server-side) and is never revisited. -/
theorem claim_C3_amended_status_histories (store : Store)
    (convId s userMsgId asstMsgId now : String) (outcome : Outcome)
    (conv : ConversationRow)
    (hs : s.isEmpty = false)
    (hconv : (store.conversations.find? fun c => c.id = convId) = some conv)
    (hne : userMsgId ≠ asstMsgId) :
    statusEvents userMsgId (responseTrace (postChatMessages store convId
      (.str s) userMsgId asstMsgId now outcome)) = [Status.sent] ∧
    (statusEvents asstMsgId (responseTrace (postChatMessages store convId
        (.str s) userMsgId asstMsgId now outcome))
          = [Status.sending, Status.sent] ∨
     statusEvents asstMsgId (responseTrace (postChatMessages store convId
        (.str s) userMsgId asstMsgId now outcome))
          = [Status.sending, Status.failed]) := by
  have hne' : asstMsgId ≠ userMsgId := Ne.symm hne
  rw [postChatMessages_sse store convId s userMsgId asstMsgId now
    outcome conv hs hconv]
  simp only [responseTrace]
  constructor
  · cases outcome with
    | success frags =>
        simp [statusEvents, statusEvents_append, streamTrace,
          statusEvents_chunkPushes, userMessageRow, placeholderRow,
          hne, hne']
    | failure frags errMsg =>
        simp [statusEvents, statusEvents_append, streamTrace,
          statusEvents_chunkPushes, userMessageRow, placeholderRow,
          hne, hne']
  · cases outcome with
    | success frags =>
        left
        simp [statusEvents, statusEvents_append, streamTrace,
          statusEvents_chunkPushes, userMessageRow, placeholderRow,
          hne, hne']
    | failure frags errMsg =>
        right
        simp [statusEvents, statusEvents_append, streamTrace,
          statusEvents_chunkPushes, userMessageRow, placeholderRow,
          hne, hne']

/-- C3 witness: the amended theorem instantiated at the concrete success
scenario. -/
theorem claim_C3_witness :
    statusEvents "u1" (responseTrace (postChatMessages store0 "c1"
      (.str "hello") "u1" "a1" "t1" (.success ["Hi"]))) = [Status.sent] ∧
    (statusEvents "a1" (responseTrace (postChatMessages store0 "c1"
        (.str "hello") "u1" "a1" "t1" (.success ["Hi"])))
          = [Status.sending, Status.sent] ∨
     statusEvents "a1" (responseTrace (postChatMessages store0 "c1"
        (.str "hello") "u1" "a1" "t1" (.success ["Hi"])))
          = [Status.sending, Status.failed]) :=
  claim_C3_amended_status_histories store0 "c1" "hello" "u1" "a1" "t1"
    (.success ["Hi"])
    { id := "c1", title := "New Chat", created_at := "t0", updated_at := "t0" }
    (by decide) (by decide) (by decide)

/-- C4: a request whose `content` is missing or not a string is answered 400
and leaves the store untouched; a request naming a conversation id that does
not exist is answered 404 and leaves the store untouched, in both the send
endpoint and the message-listing endpoint. -/
theorem claim_C4_client_errors_no_side_effects :
    (∀ (store : Store) (convId : String) (body : BodyContent)
      (userMsgId asstMsgId now : String) (outcome : Outcome),
      (body = BodyContent.missing ∨ body = BodyContent.nonString) →
      postChatMessages store convId body userMsgId asstMsgId now outcome
        = .badRequest "Message content is required" ∧
      finalStore store (responseTrace (postChatMessages store convId body
        userMsgId asstMsgId now outcome)) = store) ∧
    (∀ (store : Store) (convId : String) (body : BodyContent)
      (userMsgId asstMsgId now : String) (outcome : Outcome),
      (store.conversations.find? fun c => c.id = convId) = none →
      contentInvalid body = false →
      postChatMessages store convId body userMsgId asstMsgId now outcome
        = .notFound "Conversation not found" ∧
      finalStore store (responseTrace (postChatMessages store convId body
        userMsgId asstMsgId now outcome)) = store) ∧
    (∀ (store : Store) (convId : String),
      (store.conversations.find? fun c => c.id = convId) = none →
      getChatMessages store convId = .notFound "Conversation not found") := by
  refine ⟨?_, ?_, ?_⟩
  · intro store convId body userMsgId asstMsgId now outcome hbad
    rcases hbad with rfl | rfl <;>
      exact ⟨rfl, rfl⟩
  · intro store convId body userMsgId asstMsgId now outcome habsent hok
    have h400 : postChatMessages store convId body userMsgId asstMsgId now
        outcome = .notFound "Conversation not found" := by
      simp [postChatMessages, hok, habsent]
    refine ⟨h400, ?_⟩
    rw [h400]
    rfl
  · intro store convId habsent
    simp [getChatMessages, habsent]

/-- C4 witness: the C4 theorem instantiated — a missing body on an existing
conversation, and a well-formed body on an absent conversation id. -/
theorem claim_C4_witness :
    (postChatMessages store0 "c1" BodyContent.missing "u1" "a1" "t1"
        (.success []) = .badRequest "Message content is required" ∧
      finalStore store0 (responseTrace (postChatMessages store0 "c1"
        BodyContent.missing "u1" "a1" "t1" (.success []))) = store0) ∧
    (postChatMessages store0 "nope" (.str "hello") "u1" "a1" "t1"
        (.success []) = .notFound "Conversation not found" ∧
      finalStore store0 (responseTrace (postChatMessages store0 "nope"
        (.str "hello") "u1" "a1" "t1" (.success []))) = store0) ∧
    getChatMessages store0 "nope" = .notFound "Conversation not found" :=
  ⟨claim_C4_client_errors_no_side_effects.1 store0 "c1" BodyContent.missing
      "u1" "a1" "t1" (.success []) (Or.inl rfl),
   claim_C4_client_errors_no_side_effects.2.1 store0 "nope" (.str "hello")
      "u1" "a1" "t1" (.success []) (by decide) (by decide),
   claim_C4_client_errors_no_side_effects.2.2 store0 "nope" (by decide)⟩

/-- Whether a message carries a non-empty error detail. -/
def hasNonEmptyErrorDetail (m : MessageRow) : Bool :=
  match m.error_message with
  | some e => !e.isEmpty
  | none => false

/-- C5 counterexample: when the Completion Source fails with an empty error
message after yielding the fragment `"Hi"`, the persisted placeholder `"a1"`
carries the empty string as its error detail — the claimed non-empty error
detail fails (while the list is nonempty, so the failure is not vacuous). -/
theorem claim_C5_counterexample :
    (((finalStore store0 (responseTrace (postChatMessages store0 "c1"
        (.str "hello") "u1" "a1" "t1" (.failure ["Hi"] "")))).messages.filter
        fun m => m.id = "a1").all fun m => hasNonEmptyErrorDetail m)
      = false ∧
    ((finalStore store0 (responseTrace (postChatMessages store0 "c1"
        (.str "hello") "u1" "a1" "t1" (.failure ["Hi"] "")))).messages.filter
        fun m => m.id = "a1")
      = [{ id := "a1", conversation_id := "c1", role := .assistant,
           content := "", status := .failed, error_message := some "",
           created_at := "t1" }] := by
  exact ⟨by decide, by decide⟩

lemma getLast?_respEnd (xs ys : List Act) (a b : Act) :
    (xs ++ (ys ++ [a, b, Act.respEnd])).getLast? = some Act.respEnd := by
  rw [show [a, b, Act.respEnd] = [a, b] ++ [Act.respEnd] from rfl,
    ← List.append_assoc, ← List.append_assoc, List.getLast?_concat]

/-- C5 amended: if the Completion Source fails after yielding fragments, the
placeholder is persisted with status `failed` and with error detail exactly
the error's message (non-empty precisely when that message is non-empty); the
emitted events are the already-sent chunk events followed by exactly one
`error` event with no `done` event, and the response is ended cleanly. -/
theorem claim_C5_amended_failure_handling (store : Store)
    (convId s userMsgId asstMsgId now errMsg : String) (frags : List String)
    (conv : ConversationRow)
    (hs : s.isEmpty = false)
    (hconv : (store.conversations.find? fun c => c.id = convId) = some conv) :
    events (responseTrace (postChatMessages store convId (.str s) userMsgId
        asstMsgId now (.failure frags errMsg)))
      = frags.map SSEEvent.chunk ++ [SSEEvent.error errMsg] ∧
    (∃ m ∈ (finalStore store (responseTrace (postChatMessages store convId
        (.str s) userMsgId asstMsgId now (.failure frags errMsg)))).messages,
      m.id = asstMsgId) ∧
    (∀ m ∈ (finalStore store (responseTrace (postChatMessages store convId
        (.str s) userMsgId asstMsgId now (.failure frags errMsg)))).messages,
      m.id = asstMsgId →
        m.status = Status.failed ∧ m.error_message = some errMsg) ∧
    (responseTrace (postChatMessages store convId (.str s) userMsgId
        asstMsgId now (.failure frags errMsg))).getLast?
      = some Act.respEnd := by
  rw [postChatMessages_sse store convId s userMsgId asstMsgId now
    (.failure frags errMsg) conv hs hconv]
  simp only [responseTrace]
  refine ⟨events_of_failure_trace convId s userMsgId asstMsgId now errMsg
    frags, ?_, ?_, ?_⟩
  · rw [finalStore_messages_failure]
    refine ⟨{ placeholderRow convId asstMsgId now with
      status := Status.failed, error_message := some errMsg }, ?_, rfl⟩
    have hp : placeholderRow convId asstMsgId now
        ∈ store.messages ++ [userMessageRow convId userMsgId s now,
          placeholderRow convId asstMsgId now] := by simp
    have := List.mem_map_of_mem (fun m =>
      if m.id = asstMsgId then
        { m with status := Status.failed, error_message := some errMsg }
      else m) hp
    simp only [placeholderRow, if_pos rfl] at this
    exact this
  · rw [finalStore_messages_failure]
    intro m hm hid
    rcases List.mem_map.mp hm with ⟨m₀, hm₀, rfl⟩
    by_cases h0 : m₀.id = asstMsgId
    · simp [h0]
    · rw [if_neg h0] at hid
      exact absurd hid h0
  · rw [streamTrace]
    exact getLast?_respEnd _ _ _ _

/-- C5 witness: the amended theorem instantiated at the spec scenario — the
source yields `"Hi"` then rejects with message `"boom"`. -/
theorem claim_C5_witness :
    events (responseTrace (postChatMessages store0 "c1" (.str "hello") "u1"
        "a1" "t1" (.failure ["Hi"] "boom")))
      = ["Hi"].map SSEEvent.chunk ++ [SSEEvent.error "boom"] ∧
    (∃ m ∈ (finalStore store0 (responseTrace (postChatMessages store0 "c1"
        (.str "hello") "u1" "a1" "t1" (.failure ["Hi"] "boom")))).messages,
      m.id = "a1") ∧
    (∀ m ∈ (finalStore store0 (responseTrace (postChatMessages store0 "c1"
        (.str "hello") "u1" "a1" "t1" (.failure ["Hi"] "boom")))).messages,
      m.id = "a1" →
        m.status = Status.failed ∧ m.error_message = some "boom") ∧
    (responseTrace (postChatMessages store0 "c1" (.str "hello") "u1" "a1"
        "t1" (.failure ["Hi"] "boom"))).getLast? = some Act.respEnd :=
  claim_C5_amended_failure_handling store0 "c1" "hello" "u1" "a1" "t1"
    "boom" ["Hi"]
    { id := "c1", title := "New Chat", created_at := "t0", updated_at := "t0" }
    (by decide) (by decide)

/-- C6: a `ChatView.sendMessage` call made while a stream is active
(`isStreaming` set) is rejected: the state is returned unchanged and no
Consumer stream is opened. -/
theorem claim_C6_send_rejected_while_streaming (st : ChatState)
    (content tempId now : String) (h : st.isStreaming = true) :
    sendMessage st content tempId now = (st, SendEffect.noop) := by
  simp [sendMessage, h]

/-- A `ChatView` state in the middle of a stream, used as a concrete input. -/
def chatStreaming : ChatState :=
  { conversationId := "c1",
    messages := [tempUserMessage "c1" "temp-1" "hello" "t1"],
    streamingContent := "Hi", isStreaming := true, error := none }

/-- C6 witness: the C6 theorem instantiated at a streaming state. -/
theorem claim_C6_witness :
    sendMessage chatStreaming "more" "temp-2" "t2"
      = (chatStreaming, SendEffect.noop) :=
  claim_C6_send_rejected_while_streaming chatStreaming "more" "temp-2" "t2"
    rfl

/-- C7: when `onDone` fires, the optimistic entry (the one carrying the
temporary id) is rewritten to a confirmed-id variant (`temp-` becomes
`user-`) with status `sent`; a new confirmed assistant entry carrying exactly
the id and text of the `done` event is appended last; no entry with the
temporary id remains (given that the rewrite changes the id and the event id
differs from it); the streaming buffer is cleared and streaming ends, i.e.
the view returns to `idle`. -/
theorem claim_C7_onDone_reconciles (st : ChatState) (e : MessageRow)
    (tempId messageId fullContent now : String)
    (hmem : e ∈ st.messages) (hid : e.id = tempId)
    (hrep : jsReplaceFirst tempId "temp-" "user-" ≠ tempId)
    (hmid : messageId ≠ tempId) :
    ({ e with status := Status.sent, id := jsReplaceFirst tempId "temp-" "user-" }
        ∈ (onDone st tempId messageId fullContent now).messages) ∧
    (onDone st tempId messageId fullContent now).messages.getLast?
      = some (confirmedAssistant st.conversationId messageId fullContent
          now) ∧
    (∀ m ∈ (onDone st tempId messageId fullContent now).messages,
      m.id ≠ tempId) ∧
    (onDone st tempId messageId fullContent now).streamingContent = "" ∧
    (onDone st tempId messageId fullContent now).isStreaming = false := by
  refine ⟨?_, ?_, ?_, rfl, rfl⟩
  · refine List.mem_append_left _ (List.mem_map.mpr ⟨e, hmem, ?_⟩)
    simp [hid]
  · exact List.getLast?_concat _
  · intro m hm
    rcases List.mem_append.mp hm with hm | hm
    · rcases List.mem_map.mp hm with ⟨m₀, _, rfl⟩
      by_cases h0 : m₀.id = tempId
      · rw [if_pos h0]
        simpa [h0] using hrep
      · rw [if_neg h0]
        exact h0
    · rcases List.mem_singleton.mp hm with rfl
      exact hmid

/-- C7 witness: the C7 theorem instantiated at the streaming state with one
optimistic entry, for a `done` event with id `"a1"` and text `"Hi there"`. -/
theorem claim_C7_witness :
    ({ tempUserMessage "c1" "temp-1" "hello" "t1" with status := Status.sent, id := jsReplaceFirst "temp-1" "temp-" "user-" }
      ∈ (onDone chatStreaming "temp-1" "a1" "Hi there" "t2").messages) ∧
    (onDone chatStreaming "temp-1" "a1" "Hi there" "t2").messages.getLast?
      = some (confirmedAssistant "c1" "a1" "Hi there" "t2") ∧
    (∀ m ∈ (onDone chatStreaming "temp-1" "a1" "Hi there" "t2").messages,
      m.id ≠ "temp-1") ∧
    (onDone chatStreaming "temp-1" "a1" "Hi there" "t2").streamingContent
      = "" ∧
    (onDone chatStreaming "temp-1" "a1" "Hi there" "t2").isStreaming
      = false :=
  claim_C7_onDone_reconciles chatStreaming
    (tempUserMessage "c1" "temp-1" "hello" "t1") "temp-1" "a1" "Hi there"
    "t2" (by simp [chatStreaming]) rfl (by decide) (by decide)

lemma send_preserves_other_messages (store : Store)
    (convId s userMsgId asstMsgId now : String) (outcome : Outcome)
    (m : MessageRow) (hm : m ∈ store.messages) (hne : m.id ≠ asstMsgId) :
    m ∈ (finalStore store (responseTrace (postChatMessages store convId
      (BodyContent.str s) userMsgId asstMsgId now outcome))).messages := by
  by_cases hs : s.isEmpty
  · have : postChatMessages store convId (BodyContent.str s) userMsgId
        asstMsgId now outcome = .badRequest "Message content is required" := by
      simp [postChatMessages, contentInvalid, contentTruthy,
        contentIsString, hs]
    rw [this]
    exact hm
  · cases hfind : store.conversations.find? fun c => c.id = convId with
    | none =>
        have : postChatMessages store convId (BodyContent.str s) userMsgId
            asstMsgId now outcome = .notFound "Conversation not found" := by
          simp [postChatMessages, contentInvalid, contentTruthy,
            contentIsString, hs, hfind]
        rw [this]
        exact hm
    | some conv =>
        rw [postChatMessages_sse store convId s userMsgId asstMsgId now
          outcome conv (by simpa using hs) hfind]
        simp only [responseTrace]
        cases outcome with
        | success frags =>
            rw [finalStore_messages_success]
            refine List.mem_map.mpr ⟨m, List.mem_append_left _ hm, ?_⟩
            rw [if_neg hne]
        | failure frags errMsg =>
            rw [finalStore_messages_failure]
            refine List.mem_map.mpr ⟨m, List.mem_append_left _ hm, ?_⟩
            rw [if_neg hne]

/-- C8: `handleRetry` removes the failed entry from the view and calls
`sendMessage` with the failed entry's original text: when no stream is
active, the call opens a new Consumer stream posting that text, no entry
with the failed entry's id remains in the view, and a fresh optimistic
entry with the original text (new temporary id, status `sending`) is
appended; moreover a backend send never mutates any pre-existing persisted
message (only the fresh placeholder id is ever updated), so the original
failed message in history is untouched. -/
theorem claim_C8_retry_creates_new_pair (st : ChatState)
    (failedMsg : MessageRow) (tempId now : String)
    (hstream : st.isStreaming = false) (hfresh : tempId ≠ failedMsg.id) :
    (handleRetry st failedMsg tempId now).2
      = SendEffect.openStream failedMsg.content tempId ∧
    (∀ m ∈ (handleRetry st failedMsg tempId now).1.messages,
      m.id ≠ failedMsg.id) ∧
    (handleRetry st failedMsg tempId now).1.messages.getLast?
      = some (tempUserMessage st.conversationId tempId failedMsg.content
          now) ∧
    (∀ (store : Store) (convId s userMsgId asstMsgId now₂ : String)
      (outcome : Outcome) (m : MessageRow),
      m ∈ store.messages → m.id ≠ asstMsgId →
      m ∈ (finalStore store (responseTrace (postChatMessages store convId
        (BodyContent.str s) userMsgId asstMsgId now₂ outcome))).messages) := by
  refine ⟨?_, ?_, ?_, ?_⟩
  · simp [handleRetry, sendMessage, hstream]
  · intro m hm
    simp only [handleRetry, sendMessage, hstream, Bool.false_eq_true,
      if_false] at hm
    rcases List.mem_append.mp hm with hm | hm
    · simpa using List.of_mem_filter hm
    · rcases List.mem_singleton.mp hm with rfl
      exact hfresh
  · simp only [handleRetry, sendMessage, hstream, Bool.false_eq_true,
      if_false]
    exact List.getLast?_concat _
  · intro store convId s userMsgId asstMsgId now₂ outcome m hm hne
    exact send_preserves_other_messages store convId s userMsgId asstMsgId
      now₂ outcome m hm hne

/-- A failed optimistic user entry, as `onError` leaves it in the view. -/
def failedEntry : MessageRow :=
  { id := "temp-1", conversation_id := "c1", role := .user,
    content := "hello", status := .failed, error_message := some "boom",
    created_at := "t1" }

/-- A `ChatView` state after a failed send: one failed entry, not
streaming. -/
def chatFailed : ChatState :=
  { conversationId := "c1", messages := [failedEntry],
    streamingContent := "", isStreaming := false, error := some "boom" }

/-- The persisted failed assistant placeholder from the failed exchange. -/
def failedAsst : MessageRow :=
  { id := "a1", conversation_id := "c1", role := .assistant, content := "",
    status := .failed, error_message := some "boom", created_at := "t1" }

/-- The persisted history after the failed exchange: the user message was
stored `sent` and the placeholder `failed`. -/
def storeWithFailed : Store :=
  { conversations :=
      [{ id := "c1", title := "New Chat", created_at := "t0",
         updated_at := "t0" }],
    messages := [userMessageRow "c1" "u1" "hello" "t1", failedAsst] }

/-- C8 witness: the C8 theorem instantiated at the concrete failed state —
the retry opens a stream with the original text, appends a fresh optimistic
entry, and the retry's backend send leaves the persisted failed row
untouched. -/
theorem claim_C8_witness :
    (handleRetry chatFailed failedEntry "temp-2" "t2").2
      = SendEffect.openStream "hello" "temp-2" ∧
    (handleRetry chatFailed failedEntry "temp-2" "t2").1.messages.getLast?
      = some (tempUserMessage "c1" "temp-2" "hello" "t2") ∧
    failedAsst ∈ (finalStore storeWithFailed (responseTrace
      (postChatMessages storeWithFailed "c1" (BodyContent.str "hello") "u2"
        "a2" "t2" (.success ["Hi"])))).messages :=
  ⟨(claim_C8_retry_creates_new_pair chatFailed failedEntry "temp-2" "t2"
      rfl (by decide)).1,
   (claim_C8_retry_creates_new_pair chatFailed failedEntry "temp-2" "t2"
      rfl (by decide)).2.2.1,
   (claim_C8_retry_creates_new_pair chatFailed failedEntry "temp-2" "t2"
      rfl (by decide)).2.2.2 storeWithFailed "c1" "hello" "u2" "a2" "t2"
     (.success ["Hi"]) failedAsst (by decide) (by decide)⟩

/-- C9: validation precedes the conversation-existence check — a request
whose content is missing or non-string is answered 400 even when the
conversation id does not exist in the store (404 is never returned for
malformed input). -/
theorem claim_C9_validation_precedes_existence (store : Store)
    (convId : String) (body : BodyContent)
    (userMsgId asstMsgId now : String) (outcome : Outcome)
    (habsent : (store.conversations.find? fun c => c.id = convId) = none)
    (hbad : body = BodyContent.missing ∨ body = BodyContent.nonString) :
    postChatMessages store convId body userMsgId asstMsgId now outcome
      = .badRequest "Message content is required" := by
  rcases hbad with rfl | rfl <;> rfl

/-- C9 witness: a missing body sent to an absent conversation id is a 400,
not a 404. -/
theorem claim_C9_witness :
    postChatMessages store0 "nope" BodyContent.missing "u1" "a1" "t1"
      (.success []) = .badRequest "Message content is required" :=
  claim_C9_validation_precedes_existence store0 "nope" BodyContent.missing
    "u1" "a1" "t1" (.success []) (by decide) (Or.inl rfl)

lemma find?_append_of_none {α : Type} (p : α → Bool) (xs ys : List α)
    (h : ∀ a ∈ xs, p a = false) :
    (xs ++ ys).find? p = ys.find? p := by
  induction xs with
  | nil => rfl
  | cons a xs ih =>
      rw [List.cons_append, List.find?_cons_of_neg _
        (by simp [h a (List.mem_cons_self a xs)]),
        ih fun b hb => h b (List.mem_cons_of_mem a hb)]

/-- C10: a `POST /conversations` request whose body omits `title` or gives
the falsy empty string creates a record titled `New Chat` and is answered
201 with that record (provided the generated id is fresh, as `uuidv4` ids
are). -/
theorem claim_C10_default_title (store : Store) (title : Option String)
    (newId now : String)
    (htitle : title = none ∨ title = some "")
    (hfresh : ∀ c ∈ store.conversations, c.id ≠ newId) :
    (postChats store title newId now).status = 201 ∧
    (postChats store title newId now).record
      = some { id := newId, title := "New Chat", created_at := now,
               updated_at := now } ∧
    ({ id := newId, title := "New Chat", created_at := now,
       updated_at := now } : ConversationRow)
      ∈ (postChats store title newId now).store.conversations := by
  have hdef : titleOrDefault title = "New Chat" := by
    rcases htitle with rfl | rfl <;> rfl
  refine ⟨rfl, ?_, ?_⟩
  · show ({ store with conversations := store.conversations ++
        [{ id := newId, title := titleOrDefault title, created_at := now,
           updated_at := now }] } : Store).conversations.find?
        (fun c => c.id = newId) = _
    rw [find?_append_of_none _ _ _
      fun c hc => by simp [hfresh c hc]]
    simp [hdef]
  · show _ ∈ ({ store with conversations := store.conversations ++
        [{ id := newId, title := titleOrDefault title, created_at := now,
           updated_at := now }] } : Store).conversations
    rw [hdef]
    simp

/-- C10 witness: creating a conversation with no title in the body yields a
201 and a record titled `New Chat`. -/
theorem claim_C10_witness :
    (postChats store0 none "c2" "t3").status = 201 ∧
    (postChats store0 none "c2" "t3").record
      = some { id := "c2", title := "New Chat", created_at := "t3",
               updated_at := "t3" } ∧
    ({ id := "c2", title := "New Chat", created_at := "t3",
       updated_at := "t3" } : ConversationRow)
      ∈ (postChats store0 none "c2" "t3").store.conversations :=
  claim_C10_default_title store0 none "c2" "t3" (Or.inl rfl) (by decide)
